import Mathlib

/-!
Verification of the HARP inference-adapter core (`Source/DeepLearning/TorchModel.cpp`
together with its caller `Source/ARA/AudioModification.cpp`).

The embedding is value-level and executable:

* C++ `float`/`double` sample and scalar values are modelled as `ℚ`.  Every
  operation the verified code performs on them (copying, widening casts from
  `int`/`bool`, the constant `0.0`) is exact, so no floating-point rounding is
  lost by this choice.
* `juce::AudioBuffer<float>` is a channel count, a sample count and the
  per-channel storage.
* `torch::Tensor` is a shape (list of sizes, `dim()` is its length) plus the
  row-major data.
* `torch::from_blob` at the `to_tensor` call site is handed the address of
  the buffer's channel-pointer array itself (cast to `void *`), not the
  samples, and reinterprets that memory as raw float data.  The values so
  obtained are allocator- and machine-dependent, so they enter the embedding
  as an explicit argument rather than being fabricated.
* C++ exceptions are modelled as `Except` values carrying the thrown type:
  `catch (const char *)` clauses catch exactly the `cstr` alternative, every
  other alternative unwinds past that clause.
* `assert` is modelled with its debug-build semantics: a failing assertion
  aborts before any subsequent statement runs.
* The libtorch runtime (`torch::jit::load`, the deserialized `Module`'s
  `model_card` attribute, its `resample` method and its `forward` entry point)
  is external code; it enters the model as function-valued parameters whose
  results may be any `Except` outcome, so the theorems quantify over every
  behaviour the runtime can exhibit at those call sites.
-/

set_option maxHeartbeats 1000000
set_option linter.unusedVariables false

/-- Thrown C++ exception, tagged with the dynamic type that a `catch` clause
dispatches on: a `const char *` string literal throw, a `c10::Error` thrown by
libtorch, or `std::bad_any_cast` thrown by a failing `any_cast`. -/
inductive TErr
  | cstr (msg : String)
  | c10 (msg : String)
  | badAnyCast
deriving DecidableEq

deriving instance DecidableEq for Except

/-- A `juce::AudioBuffer<float>`: channel count, sample count, per-channel
storage (`getArrayOfReadPointers` exposes `data` row by row). -/
structure AudioBuffer where
  numChannels : Nat
  numSamples : Nat
  data : List (List ℚ)
deriving DecidableEq

/-- The buffer really holds `numChannels` rows of `numSamples` samples each
(true of every buffer JUCE constructs). -/
def wfBuffer (b : AudioBuffer) : Prop :=
  b.data.length = b.numChannels ∧ ∀ r ∈ b.data, r.length = b.numSamples

instance (b : AudioBuffer) : Decidable (wfBuffer b) := by
  unfold wfBuffer; infer_instance

/-- A `torch::Tensor`: its `sizes()` list (`dim()` is `shape.length`) and the
row-major data.  For a rank-2 tensor of shape `[c, n]`, row `i` is the `n`
entries starting at offset `i * n`. -/
structure Tensor where
  shape : List Nat
  data : List ℚ
deriving DecidableEq

/-- Abnormal termination other than a C++ exception: a failed `assert`
(debug-build semantics: the process aborts). -/
inductive Fault
  | assertFailure
deriving DecidableEq

/-- `TorchModel::to_tensor` (TorchModel.cpp:112-119):
`torch::from_blob((void *)buffer.getArrayOfReadPointers(), {C, N}, kFloat32)`
followed by `clone()`.  `getArrayOfReadPointers()` returns the address of
JUCE's array of per-channel pointers, and `from_blob` never dereferences
those pointers: it reinterprets the memory at the given address itself as
`C * N` contiguous float32 values.  The tensor therefore gets the buffer's
shape, but its data are the reinterpreted channel-pointer bytes (and whatever
follows them in the allocation), not the samples.  Those machine- and
allocator-dependent values enter the embedding as the explicit
`reinterpreted` argument; nothing relates them to `buffer.data`. -/
def TorchModel.to_tensor (reinterpreted : List ℚ) (buffer : AudioBuffer) : Tensor :=
  { shape := [buffer.numChannels, buffer.numSamples]
    data := reinterpreted }

/-- `TorchModel::to_buffer` (TorchModel.cpp:121-136): `assert(dim() == 2)`,
then `setSize(size(0), size(1))` on the destination, then for each channel `i`
copy `getNumSamples()` floats from `src_tensor[i].data_ptr<float>()`.  The
failing assert aborts before `setSize` runs, so on the error path the
destination is untouched. -/
def TorchModel.to_buffer (src_tensor : Tensor) (dest_buffer : AudioBuffer) :
    Except Fault AudioBuffer :=
  match src_tensor.shape with
  | [c, n] =>
    .ok { numChannels := c
          numSamples := n
          data := (List.range c).map fun i => (src_tensor.data.drop (i * n)).take n }
  | _ => .error .assertFailure

/-- Stand-in values for the reinterpreted channel-pointer bytes at one
concrete `to_tensor` call: address-magnitude numbers, nothing like the
samples. -/
def junkBytes : List ℚ := [16384, 32768]

/-- C6 (code bug). The round-trip codec law the claim states is the evident
intent of the code — `to_buffer`'s comment says "copy the tensor to the
buffer" expecting channel rows, and `to_tensor` defensively clones — but the
`from_blob` call passes the address of the channel-pointer array itself, so
`encode` captures reinterpreted pointer bytes instead of samples.  At the
failing input (a 1-channel, 2-sample buffer holding `[1, 3]`, with the
pointer-array memory reading as `junkBytes`), decoding the encoded tensor
into an arbitrary destination reproduces the (1, 2) shape but yields the
pointer bytes — a buffer different from the original, falsifying the
round-trip identity on the code as written. -/
theorem C6_roundtrip_fails_on_pointer_bytes :
    TorchModel.to_buffer (TorchModel.to_tensor junkBytes ⟨1, 2, [[1, 3]]⟩)
        ⟨1, 1, [[7]]⟩ = .ok ⟨1, 2, [[16384, 32768]]⟩
      ∧ AudioBuffer.mk 1 2 [[16384, 32768]] ≠ AudioBuffer.mk 1 2 [[1, 3]] :=
  ⟨rfl, by decide⟩

/-- C7 (confirmed). Rank invariant of `decode`: on a tensor whose rank is not
2, `to_buffer` signals the contract violation (the assert aborts) and returns
no mutated buffer — the destination is neither resized nor written, whatever
its shape. -/
theorem C7_rank_contract (t : Tensor) (dest : AudioBuffer)
    (h : t.shape.length ≠ 2) :
    TorchModel.to_buffer t dest = .error .assertFailure := by
  unfold TorchModel.to_buffer
  match hs : t.shape with
  | [] => rfl
  | [_] => rfl
  | _ :: _ :: _ :: _ => rfl
  | [c, n] => exact absurd (by simp [hs]) h

/-- Witness for C7: decoding a rank-1 tensor fails the rank assert. -/
theorem C7_rank_contract_witness :
    (Tensor.mk [3] [1, 2, 3]).shape.length ≠ 2 ∧
      TorchModel.to_buffer ⟨[3], [1, 2, 3]⟩ ⟨1, 2, [[0, 0]]⟩
        = .error .assertFailure :=
  ⟨by decide, C7_rank_contract ⟨[3], [1, 2, 3]⟩ ⟨1, 2, [[0, 0]]⟩ (by decide)⟩

/-- A value of the `std::any` in the caller-supplied parameter map, tagged with
its dynamic type exactly as the marshalling loop's `typeid` chain dispatches on
it: `int`, `float`, `double`, `bool`, `std::string`, or any other type (the
chain has no branch for those). -/
inductive PValue
  | pInt (n : Int)
  | pFloat (x : ℚ)
  | pDouble (x : ℚ)
  | pBool (b : Bool)
  | pStr (s : String)
  | pOther
deriving DecidableEq

/-- An `IValue` stored in the loop's second dictionary
(`c10::Dict<string, IValue> parameters2`): either a tensor or a string. -/
inductive IVal
  | tens (t : Tensor)
  | str (s : String)
deriving DecidableEq

/-- `torch::tensor({x})`: a 1-element rank-1 tensor. -/
def scalarTensor (x : ℚ) : Tensor := ⟨[1], [x]⟩

/-- The loop-local `valueAsDouble` of `TorchWave2Wave::process`
(TorchModel.cpp:164-186): initialized to `0.0`, overwritten by the matching
`typeid` branch; the `std::string` branch and the no-branch case leave it at
`0.0`. -/
def valueAsDouble : PValue → ℚ
  | .pInt n => (n : ℚ)
  | .pFloat x => x
  | .pDouble x => x
  | .pBool b => if b then 1 else 0
  | .pStr _ => 0
  | .pOther => 0

/-- The parameter loop of `TorchWave2Wave::process` (TorchModel.cpp:161-190).
For each map entry it fills two dictionaries: `parameters2` receives a
1-element tensor for the four numeric types and the raw string for
`std::string` (no branch runs for any other type, so such entries are absent
from it), and `parameters` — the dictionary later handed to `forward` —
unconditionally receives `torch::tensor({valueAsDouble})` at the end of the
iteration.  The source map is a `std::map`, so its keys are unique; nothing
below depends on that. -/
def processParams :
    List (String × PValue) → List (String × Tensor) × List (String × IVal)
  | [] => ([], [])
  | (key, v) :: rest =>
    let d := valueAsDouble v
    let p2entry : List (String × IVal) :=
      match v with
      | .pInt _ => [(key, .tens (scalarTensor d))]
      | .pFloat _ => [(key, .tens (scalarTensor d))]
      | .pDouble _ => [(key, .tens (scalarTensor d))]
      | .pBool _ => [(key, .tens (scalarTensor d))]
      | .pStr s => [(key, .str s)]
      | .pOther => []
    let (ps, ps2) := processParams rest
    ((key, scalarTensor d) :: ps, p2entry ++ ps2)

/-- The entry `parameters2` receives for one map entry, as a standalone
function (used only to state the closed form of `processParams`). -/
def secondDictEntry (p : String × PValue) : Option (String × IVal) :=
  match p.2 with
  | .pInt _ => some (p.1, .tens (scalarTensor (valueAsDouble p.2)))
  | .pFloat _ => some (p.1, .tens (scalarTensor (valueAsDouble p.2)))
  | .pDouble _ => some (p.1, .tens (scalarTensor (valueAsDouble p.2)))
  | .pBool _ => some (p.1, .tens (scalarTensor (valueAsDouble p.2)))
  | .pStr s => some (p.1, .str s)
  | .pOther => none

/-- The `model_card` python object of a deserialized module: each `getAttr`
call may independently throw inside libtorch, so each attribute is an
`Except`-valued result. -/
structure PyCardObj where
  nameAttr : Except TErr String
  descriptionAttr : Except TErr String
  authorAttr : Except TErr String
  sampleRateAttr : Except TErr Int
  tagsAttr : Except TErr (List String)

/-- A deserialized `torch::jit::Module` (the source's `Module` alias; named
`JitModule` here because Lean already has a `Module`), abstracted to the three
entry points the adapter uses: the `model_card` attribute, the `resample`
method (already composed with the `.toTensor()` on its result, which can
itself throw), and the `forward` entry point (likewise composed with
`.toTensor()`). -/
structure JitModule where
  model_card : Except TErr PyCardObj
  resample : Tensor → Int → Except TErr Tensor
  forward : Tensor → List (String × Tensor) → Except TErr Tensor

/-- The model card owned by the handle (`ModelCard m_card`). -/
structure ModelCard where
  name : String
  description : String
  author : String
  sampleRate : Int
  tags : List String
deriving DecidableEq

/-- The mutable state of a `TorchModel` / `TorchWave2Wave` handle:
`m_model` (null before the first successful deserialization), `m_loaded`,
and `m_card`.  The `m_mutex` member serializes `load` and `process`; in this
sequential embedding each operation is one atomic function (the interleaving
argument is a separate transition system below). -/
structure TorchModelState where
  m_model : Option JitModule
  m_loaded : Bool
  m_card : ModelCard

/-- `TorchModel::ready` (TorchModel.cpp:106). -/
def TorchModel.ready (st : TorchModelState) : Bool := st.m_loaded

/-- `tensor.mean(0, true)` for the rank-2 tensors `to_tensor` produces:
column-wise arithmetic mean, keeping dim 0 with extent 1.  (`process` only
ever applies it to a `to_tensor` result, which has rank 2.) -/
def meanDim0 (t : Tensor) : Tensor :=
  match t.shape with
  | [c, n] =>
    { shape := [1, n]
      data := (List.range n).map fun j =>
        (((List.range c).map fun i => t.data.getD (i * n + j) 0).sum) / (c : ℚ) }
  | _ => t

/-- How a call of `TorchWave2Wave::process` terminated: a normal return (the
happy path), a normal return through the `catch (const char *msg)` clause, a
C++ exception unwinding out of the function uncaught, the `assert` abort
inside `to_buffer`, or the undefined behaviour of calling through the null
`m_model` pointer of a never-loaded handle. -/
inductive ProcOutcome
  | ok
  | caughtCStr (msg : String)
  | uncaught (e : TErr)
  | assertAbort
  | nullModelFault
deriving DecidableEq

/-- Result of one `TorchWave2Wave::process` call: the final contents of the
caller's buffer, how the call terminated, and — instrumentation for the
marshalling claims — the dictionary passed to `forward`, when that call was
reached. -/
structure ProcResult where
  buffer : AudioBuffer
  outcome : ProcOutcome
  fwdDict : Option (List (String × Tensor))

/-- `TorchWave2Wave::process` (TorchModel.cpp:146-224).  Under the handle's
lock: build the mono input tensor, build the two parameter dictionaries, then
inside `try` call the module's `resample`, pass the *first* dictionary
(`parameters`, the all-numeric one) to `forward`, and decode the output into
the caller's buffer.  `catch (const char *msg)` logs and returns, so only
`cstr`-typed throws are caught; any other exception type unwinds out.  The
function never consults `ready()`; on a never-loaded handle `m_model` is null
and the `m_model->get_method("resample")` call is undefined behaviour.
`reinterpreted` is the raw-float reinterpretation of the channel-pointer
array at this call's `from_blob`, exactly as in `to_tensor`. -/
def TorchWave2Wave.process (reinterpreted : List ℚ) (st : TorchModelState)
    (bufferToProcess : AudioBuffer) (sampleRate : Int)
    (params : List (String × PValue)) : ProcResult :=
  let input := meanDim0 (TorchModel.to_tensor reinterpreted bufferToProcess)
  let parameters := (processParams params).1
  let parameters2 := (processParams params).2
  match st.m_model with
  | none => ⟨bufferToProcess, .nullModelFault, none⟩
  | some mdl =>
    match mdl.resample input sampleRate with
    | .error (.cstr m) => ⟨bufferToProcess, .caughtCStr m, none⟩
    | .error e => ⟨bufferToProcess, .uncaught e, none⟩
    | .ok resampled =>
      match mdl.forward resampled parameters with
      | .error (.cstr m) => ⟨bufferToProcess, .caughtCStr m, some parameters⟩
      | .error e => ⟨bufferToProcess, .uncaught e, some parameters⟩
      | .ok output =>
        match TorchModel.to_buffer output bufferToProcess with
        | .error _ => ⟨bufferToProcess, .assertAbort, some parameters⟩
        | .ok buf => ⟨buf, .ok, some parameters⟩

lemma processParams_fst (params : List (String × PValue)) :
    (processParams params).1
      = params.map fun p => (p.1, scalarTensor (valueAsDouble p.2)) := by
  induction params with
  | nil => rfl
  | cons p rest ih =>
    obtain ⟨k, v⟩ := p
    cases v <;> simp [processParams, ih]

lemma processParams_snd (params : List (String × PValue)) :
    (processParams params).2 = params.filterMap secondDictEntry := by
  induction params with
  | nil => rfl
  | cons p rest ih =>
    obtain ⟨k, v⟩ := p
    cases v <;> simp [processParams, secondDictEntry, ih]

lemma process_fwdDict (ri : List ℚ) (st : TorchModelState) (buf : AudioBuffer)
    (sr : Int) (params : List (String × PValue)) (d : List (String × Tensor))
    (h : (TorchWave2Wave.process ri st buf sr params).fwdDict = some d) :
    d = (processParams params).1 := by
  unfold TorchWave2Wave.process at h
  split at h
  · exact absurd h (by simp)
  · dsimp only at h
    split at h
    · exact absurd h (by simp)
    · exact absurd h (by simp)
    · split at h
      · exact (Option.some_inj.mp h).symm
      · exact (Option.some_inj.mp h).symm
      · split at h
        · exact (Option.some_inj.mp h).symm
        · exact (Option.some_inj.mp h).symm

/-- C4 (corrected). What the marshalling loop actually does, in closed form:
the dictionary later handed to `forward` maps every entry — whatever its
dynamic type — to the 1-element tensor of its `valueAsDouble` (so a string or
an unrecognized type becomes a `0.0` tensor, with no error of any kind), and
only the second, never-consumed dictionary distinguishes strings; entries of
unrecognized type are silently absent from it.  No `UnsupportedParameterType`
failure exists on any path. -/
theorem C4_marshal_closed_form (params : List (String × PValue)) :
    (processParams params).1
        = (params.map fun p => (p.1, scalarTensor (valueAsDouble p.2)))
      ∧ (processParams params).2 = params.filterMap secondDictEntry :=
  ⟨processParams_fst params, processParams_snd params⟩

/-- Model card object whose five attribute reads all succeed. -/
def okCard : PyCardObj :=
  ⟨.ok "demo", .ok "a demo model", .ok "someone", .ok 22050, .ok ["tag"]⟩

/-- A module whose `resample` and `forward` both succeed and echo their input
tensor. -/
def okModule : JitModule := ⟨.ok okCard, fun t _ => .ok t, fun t _ => .ok t⟩

/-- The freshly constructed (empty) model card. -/
def emptyCard : ModelCard := ⟨"", "", "", 0, []⟩

/-- Handle state after a successful load of `okModule`. -/
def loadedState : TorchModelState := ⟨some okModule, true, emptyCard⟩

/-- A concrete mono input buffer. -/
def bufW : AudioBuffer := ⟨1, 2, [[1, 3]]⟩

/-- Counterexample to C4 as stated: a parameter of unrecognized dynamic type
does not produce an `UnsupportedParameterType` error surfaced to the caller —
`process` silently coerces it to a `0.0` scalar tensor, passes that to
`forward`, and completes normally. -/
theorem C4_unsupported_type_silently_coerced :
    processParams [("x", PValue.pOther)] = ([("x", scalarTensor 0)], [])
      ∧ (TorchWave2Wave.process junkBytes loadedState bufW 44100
            [("x", PValue.pOther)]).fwdDict = some [("x", scalarTensor 0)]
      ∧ (TorchWave2Wave.process junkBytes loadedState bufW 44100
            [("x", PValue.pOther)]).outcome = ProcOutcome.ok :=
  ⟨rfl, rfl, rfl⟩

/-- A module whose `resample` method throws a `c10::Error`, as libtorch does
on a failed method call. -/
def resampleC10Module : JitModule :=
  ⟨.ok okCard, fun _ _ => .error (.c10 "size mismatch"), fun t _ => .ok t⟩

/-- Handle state holding `resampleC10Module`. -/
def resampleC10State : TorchModelState := ⟨some resampleC10Module, true, emptyCard⟩

/-- Counterexample to C3 as stated: a failure during the resample step that is
thrown as a `c10::Error` — the type libtorch actually throws — is not caught
by the `catch (const char *)` clause and unwinds out of `process` uncaught. -/
theorem C3_c10_error_escapes_process :
    (TorchWave2Wave.process junkBytes resampleC10State bufW 44100 []).outcome
      = ProcOutcome.uncaught (TErr.c10 "size mismatch") := rfl

/-- C3 (corrected, amended part that holds). The only exceptions `process`
lets escape are those of a type other than `const char *`: every `const
char *` throw from the resample, forward-pass or output-handling steps is
caught by the `catch` clause and converted to a logged normal return, so an
uncaught outcome is never `cstr`-typed. -/
theorem C3_cstr_failures_caught (ri : List ℚ) (st : TorchModelState)
    (buf : AudioBuffer) (sr : Int) (params : List (String × PValue)) (e : TErr)
    (h : (TorchWave2Wave.process ri st buf sr params).outcome = .uncaught e) :
    ∀ m, e ≠ TErr.cstr m := by
  intro m
  unfold TorchWave2Wave.process at h
  split at h
  · exact absurd h (by simp)
  · dsimp only at h
    split at h
    · exact absurd h (by simp)
    · next hno heq =>
      simp only [ProcResult.outcome, ProcOutcome.uncaught.injEq] at h
      subst h
      exact fun hc => hno m hc
    · split at h
      · exact absurd h (by simp)
      · next hno heq =>
        simp only [ProcResult.outcome, ProcOutcome.uncaught.injEq] at h
        subst h
        exact fun hc => hno m hc
      · split at h
        · exact absurd h (by simp)
        · exact absurd h (by simp)

/-- Witness for C3: at the concrete run whose resample throws a `c10::Error`,
the escaped exception is indeed not of the caught `const char *` type. -/
theorem C3_cstr_failures_caught_witness :
    (TorchWave2Wave.process junkBytes resampleC10State bufW 44100
        [("g", PValue.pDouble (1 / 2))]).outcome
        = ProcOutcome.uncaught (TErr.c10 "size mismatch")
      ∧ TErr.c10 "size mismatch" ≠ TErr.cstr "size mismatch" :=
  ⟨rfl,
   C3_cstr_failures_caught junkBytes resampleC10State bufW 44100
     [("g", PValue.pDouble (1 / 2))] (TErr.c10 "size mismatch") rfl
     "size mismatch"⟩

/-- C10 (confirmed). Whatever its dynamic type, every entry of the parameter
map reaches the dictionary actually passed to the forward call as a 1-element
numeric tensor under its own key; for string-typed and unrecognized-typed
values that tensor holds `0.0`.  In particular string parameters are never
delivered to the forward pass as strings (the dictionary's value type is
tensors only, and the string-bearing second dictionary is never passed). -/
theorem C10_forward_dict_numeric (ri : List ℚ) (st : TorchModelState)
    (buf : AudioBuffer) (sr : Int) (params : List (String × PValue))
    (k : String) (v : PValue) (d : List (String × Tensor))
    (hmem : (k, v) ∈ params)
    (h : (TorchWave2Wave.process ri st buf sr params).fwdDict = some d) :
    (k, scalarTensor (valueAsDouble v)) ∈ d
      ∧ (scalarTensor (valueAsDouble v)).data = [valueAsDouble v]
      ∧ (∀ s, valueAsDouble (PValue.pStr s) = 0)
      ∧ valueAsDouble PValue.pOther = 0 := by
  have hd := process_fwdDict ri st buf sr params d h
  subst hd
  rw [processParams_fst]
  exact ⟨List.mem_map_of_mem _ hmem, rfl, fun s => rfl, rfl⟩

/-- Witness for C10: a string-valued parameter `gain` reaches the forward
dictionary as the 1-element `0.0` tensor. -/
theorem C10_forward_dict_numeric_witness :
    (TorchWave2Wave.process junkBytes loadedState bufW 44100
        [("gain", PValue.pStr "hello")]).fwdDict
        = some [("gain", scalarTensor 0)]
      ∧ ("gain", scalarTensor (valueAsDouble (PValue.pStr "hello")))
          ∈ [("gain", scalarTensor 0)] :=
  ⟨rfl,
   (C10_forward_dict_numeric junkBytes loadedState bufW 44100
      [("gain", PValue.pStr "hello")] "gain" (PValue.pStr "hello")
      [("gain", scalarTensor 0)] (by simp) rfl).1⟩

/-- The `juce::ARAAudioSourceReader` owned by an `AudioModification`, reduced
to what `AudioModification::process` consults: validity, channel count,
length in samples, and the samples a `read` call delivers. -/
structure AudioSourceReader where
  valid : Bool
  numChannels : Nat
  lengthInSamples : Nat
  content : List (List ℚ)

/-- The state of an `AudioModification` (AudioModification.cpp): the shared
model handle, the processed-audio buffer, the modified flag, the source's
sample rate and the source reader. -/
structure AudioModification where
  mModel : TorchModelState
  mAudioBuffer : Option AudioBuffer
  mIsModified : Bool
  mSampleRate : Int
  reader : AudioSourceReader

/-- Result of one `AudioModification::process` call: the object state after
the call and how the call terminated (`ok` covers the early returns and the
normal path; an abnormal outcome of the inner `TorchWave2Wave::process`
propagates). -/
structure AMResult where
  am : AudioModification
  outcome : ProcOutcome

/-- `AudioModification::process` (AudioModification.cpp:59-86): if the model
is not `ready()`, return immediately — nothing is touched; if the reader is
invalid, only log; otherwise replace `mAudioBuffer` with a fresh buffer of the
source's shape, `read` the source into it, run the model's `process` on it,
and set `mIsModified`.  A `const char *` failure inside the inner `process`
was already caught and logged there, so this call still completes and sets the
flag; an uncaught exception or abort skips the `mIsModified = true` line but
leaves the freshly assigned buffer in place.  `reinterpreted` is the
raw-float reinterpretation of the channel-pointer array at the inner call's
`from_blob`, as in `to_tensor`. -/
def AudioModification.process (am : AudioModification)
    (params : List (String × PValue)) (reinterpreted : List ℚ) : AMResult :=
  if TorchModel.ready am.mModel = false then ⟨am, .ok⟩
  else if am.reader.valid = false then ⟨am, .ok⟩
  else
    let buf : AudioBuffer :=
      ⟨am.reader.numChannels, am.reader.lengthInSamples, am.reader.content⟩
    let pr := TorchWave2Wave.process reinterpreted am.mModel buf am.mSampleRate params
    match pr.outcome with
    | .ok => ⟨{ am with mAudioBuffer := some pr.buffer, mIsModified := true }, .ok⟩
    | .caughtCStr _ =>
      ⟨{ am with mAudioBuffer := some pr.buffer, mIsModified := true }, .ok⟩
    | o => ⟨{ am with mAudioBuffer := some pr.buffer }, o⟩

/-- C5 (confirmed). Readiness gating: a `process` call on a handle for which
no load ever succeeded (`ready()` is false) returns immediately, leaving the
whole modification — in particular its audio buffer — byte-for-byte unchanged,
and reports no error.  (The gate lives in `AudioModification::process`; the
inner `TorchWave2Wave::process` relies on it and is only invoked through this
guarded pipeline entry.) -/
theorem C5_not_ready_noop (am : AudioModification)
    (params : List (String × PValue)) (ri : List ℚ)
    (h : TorchModel.ready am.mModel = false) :
    AudioModification.process am params ri = ⟨am, .ok⟩ := by
  unfold AudioModification.process
  simp [h]

/-- A never-loaded modification over a valid two-sample mono source. -/
def unloadedAM : AudioModification :=
  ⟨⟨none, false, emptyCard⟩, none, false, 44100, ⟨true, 1, 2, [[1, 3]]⟩⟩

/-- Witness for C5: processing on the never-loaded handle is a no-op. -/
theorem C5_not_ready_noop_witness :
    TorchModel.ready unloadedAM.mModel = false ∧
      AudioModification.process unloadedAM [("gain", PValue.pDouble (1 / 2))]
          junkBytes
        = ⟨unloadedAM, .ok⟩ :=
  ⟨rfl,
   C5_not_ready_noop unloadedAM [("gain", PValue.pDouble (1 / 2))] junkBytes rfl⟩

/-- The externally observable actions `TorchModel::load` performs, in program
order: the `sendChangeMessage()` broadcast delivered to the observers
registered through `addListener` (which is `addChangeListener`), the five
model-card field assignments, and the `broadcastModelCardLoaded()` call. -/
inductive Ev
  | changeMessage
  | setName
  | setDescription
  | setAuthor
  | setSampleRate
  | setTags
  | cardBroadcast
deriving DecidableEq

/-- Result of one `TorchModel::load` call: the returned boolean (or the
exception that unwound out of `load`), the handle state after the call, and
the events the call fired, in order. -/
structure LoadResult where
  ret : Except TErr Bool
  state : TorchModelState
  events : List Ev

/-- The `catch (const char *e)` clause of `load` (TorchModel.cpp:96-101): a
`cstr`-typed throw is converted into `return false`; any other exception type
unwinds out of `load`.  Events already fired stay fired and state changes
already made stay made either way. -/
def loadCatch (e : TErr) (st : TorchModelState) (evs : List Ev) : LoadResult :=
  match e with
  | .cstr _ => ⟨.ok false, st, evs⟩
  | _ => ⟨.error e, st, evs⟩

/-- The model-card population block of `TorchModel::load`
(TorchModel.cpp:82-94), entered with the module already stored, `m_loaded`
already true, and the change message already sent: read the five attributes
of `model_card` in order, assigning the corresponding `m_card` field as each
arrives (the tag list is appended element-wise with `push_back`), then call
`broadcastModelCardLoaded()` and fall through to `return true`.  Any throw
lands in the enclosing catch clause, leaving the fields assigned so far. -/
def populateCard (py : PyCardObj) (st : TorchModelState) (evs : List Ev) :
    LoadResult :=
  match py.nameAttr with
  | .error e => loadCatch e st evs
  | .ok nm =>
    let st := { st with m_card := { st.m_card with name := nm } }
    let evs := evs ++ [Ev.setName]
    match py.descriptionAttr with
    | .error e => loadCatch e st evs
    | .ok ds =>
      let st := { st with m_card := { st.m_card with description := ds } }
      let evs := evs ++ [Ev.setDescription]
      match py.authorAttr with
      | .error e => loadCatch e st evs
      | .ok au =>
        let st := { st with m_card := { st.m_card with author := au } }
        let evs := evs ++ [Ev.setAuthor]
        match py.sampleRateAttr with
        | .error e => loadCatch e st evs
        | .ok sr =>
          let st := { st with m_card := { st.m_card with sampleRate := sr } }
          let evs := evs ++ [Ev.setSampleRate]
          match py.tagsAttr with
          | .error e => loadCatch e st evs
          | .ok tg =>
            let st :=
              { st with m_card := { st.m_card with tags := st.m_card.tags ++ tg } }
            let evs := evs ++ [Ev.setTags]
            ⟨.ok true, st, evs ++ [Ev.cardBroadcast]⟩

/-- `TorchModel::load` (TorchModel.cpp:48-104).  Under the handle's lock:
return false when the map has no "modelPath" key; `any_cast<string>` the value
— a non-string value makes the cast throw `std::bad_any_cast` outside the
`try`, unwinding out of `load`; inside `try`, deserialize via
`torch::jit::load` and switch to eval mode — modelled together as the
function argument `jitLoad`, whose failure throws — then store the module,
set `m_loaded = true`, call `sendChangeMessage()`, and only after that read
and populate the model card and broadcast it.  `catch (const char *)` turns a
`cstr`-typed throw into `return false`. -/
def TorchModel.load (jitLoad : String → Except TErr JitModule)
    (st : TorchModelState) (params : List (String × PValue)) : LoadResult :=
  match List.lookup "modelPath" params with
  | none => ⟨.ok false, st, []⟩
  | some (.pStr modelPath) =>
    (match jitLoad modelPath with
     | .error e => loadCatch e st []
     | .ok mdl =>
       let st1 : TorchModelState :=
         { st with m_model := some mdl, m_loaded := true }
       match mdl.model_card with
       | .error e => loadCatch e st1 [Ev.changeMessage]
       | .ok py => populateCard py st1 [Ev.changeMessage])
  | some _ => ⟨.error .badAnyCast, st, []⟩

lemma loadCatch_state (e : TErr) (st : TorchModelState) (evs : List Ev) :
    (loadCatch e st evs).state = st := by cases e <;> rfl

lemma loadCatch_events (e : TErr) (st : TorchModelState) (evs : List Ev) :
    (loadCatch e st evs).events = evs := by cases e <;> rfl

lemma loadCatch_ret (e : TErr) (st : TorchModelState) (evs : List Ev) :
    (loadCatch e st evs).ret ≠ .ok true := by cases e <;> simp [loadCatch]

lemma populateCard_broadcast (py : PyCardObj) (st : TorchModelState)
    (evs : List Ev) (hevs : Ev.cardBroadcast ∉ evs)
    (h : Ev.cardBroadcast ∈ (populateCard py st evs).events) :
    (populateCard py st evs).events
      = evs ++ [Ev.setName, Ev.setDescription, Ev.setAuthor, Ev.setSampleRate,
                Ev.setTags, Ev.cardBroadcast] := by
  revert h
  unfold populateCard
  dsimp only
  split <;> intro h
  · rw [loadCatch_events] at h; exact absurd h hevs
  · revert h; split <;> intro h
    · rw [loadCatch_events] at h; simp at h; exact absurd h hevs
    · revert h; split <;> intro h
      · rw [loadCatch_events] at h; simp at h; exact absurd h hevs
      · revert h; split <;> intro h
        · rw [loadCatch_events] at h; simp at h; exact absurd h hevs
        · revert h; split <;> intro h
          · rw [loadCatch_events] at h; simp at h; exact absurd h hevs
          · simp

lemma populateCard_prefix (py : PyCardObj) (st : TorchModelState)
    (evs : List Ev) :
    ∃ t, (populateCard py st evs).events = evs ++ t := by
  unfold populateCard
  dsimp only
  split
  · exact ⟨[], by rw [loadCatch_events, List.append_nil]⟩
  · split
    · exact ⟨[Ev.setName], by rw [loadCatch_events]⟩
    · split
      · exact ⟨[Ev.setName, Ev.setDescription], by rw [loadCatch_events]; simp⟩
      · split
        · exact ⟨[Ev.setName, Ev.setDescription, Ev.setAuthor],
            by rw [loadCatch_events]; simp⟩
        · split
          · exact ⟨[Ev.setName, Ev.setDescription, Ev.setAuthor,
              Ev.setSampleRate], by rw [loadCatch_events]; simp⟩
          · exact ⟨[Ev.setName, Ev.setDescription, Ev.setAuthor,
              Ev.setSampleRate, Ev.setTags, Ev.cardBroadcast], by simp⟩

lemma populateCard_loaded (py : PyCardObj) (st : TorchModelState)
    (evs : List Ev) :
    (populateCard py st evs).state.m_loaded = st.m_loaded := by
  unfold populateCard
  dsimp only
  split
  · rw [loadCatch_state]
  · split
    · rw [loadCatch_state]
    · split
      · rw [loadCatch_state]
      · split
        · rw [loadCatch_state]
        · split
          · rw [loadCatch_state]
          · rfl

lemma populateCard_success (py : PyCardObj) (st : TorchModelState)
    (evs : List Ev) (h : (populateCard py st evs).ret = .ok true) :
    (populateCard py st evs).events
        = evs ++ [Ev.setName, Ev.setDescription, Ev.setAuthor,
                  Ev.setSampleRate, Ev.setTags, Ev.cardBroadcast]
      ∧ (populateCard py st evs).state.m_loaded = st.m_loaded
      ∧ (populateCard py st evs).state.m_model = st.m_model := by
  revert h
  unfold populateCard
  dsimp only
  split <;> intro h
  · exact absurd h (loadCatch_ret _ _ _)
  · revert h; split <;> intro h
    · exact absurd h (loadCatch_ret _ _ _)
    · revert h; split <;> intro h
      · exact absurd h (loadCatch_ret _ _ _)
      · revert h; split <;> intro h
        · exact absurd h (loadCatch_ret _ _ _)
        · revert h; split <;> intro h
          · exact absurd h (loadCatch_ret _ _ _)
          · exact ⟨by simp, rfl, rfl⟩

/-- C1 (corrected, amended part that holds). On any `load` call, the
model-card broadcast (`broadcastModelCardLoaded`) fires only at the very end
of a fully successful population: whenever it occurs in the event trace, the
trace is exactly the change message, then all five metadata-field assignments
in order, then the broadcast.  (The change-message notification to the
observers registered through `addListener`, by contrast, always precedes the
field assignments — see the counterexample.) -/
theorem C1_card_broadcast_after_population
    (jit : String → Except TErr JitModule) (st : TorchModelState)
    (params : List (String × PValue))
    (h : Ev.cardBroadcast ∈ (TorchModel.load jit st params).events) :
    (TorchModel.load jit st params).events
      = [Ev.changeMessage, Ev.setName, Ev.setDescription, Ev.setAuthor,
         Ev.setSampleRate, Ev.setTags, Ev.cardBroadcast] := by
  revert h
  unfold TorchModel.load
  split <;> intro h
  · simp at h
  · revert h
    dsimp only
    split <;> intro h
    · rw [loadCatch_events] at h; simp at h
    · revert h
      split <;> intro h
      · rw [loadCatch_events] at h; simp at h
      · have := populateCard_broadcast _ _ [Ev.changeMessage] (by decide) h
        simpa using this
  · simp at h

/-- A `jitLoad` oracle that always deserializes successfully to `okModule`. -/
def jitOk : String → Except TErr JitModule := fun _ => .ok okModule

/-- A freshly constructed, never-loaded handle. -/
def st0 : TorchModelState := ⟨none, false, emptyCard⟩

/-- A parameter map holding a string-valued "modelPath". -/
def goodParams : List (String × PValue) := [("modelPath", PValue.pStr "valid.model")]

/-- Witness for C1's amended theorem: on a concrete fully successful load the
broadcast is the last event, after all five field assignments. -/
theorem C1_card_broadcast_after_population_witness :
    Ev.cardBroadcast ∈ (TorchModel.load jitOk st0 goodParams).events
      ∧ (TorchModel.load jitOk st0 goodParams).events
          = [Ev.changeMessage, Ev.setName, Ev.setDescription, Ev.setAuthor,
             Ev.setSampleRate, Ev.setTags, Ev.cardBroadcast] :=
  ⟨by decide, C1_card_broadcast_after_population jitOk st0 goodParams (by decide)⟩

/-- Counterexample to C1 as stated: on this fully successful load, the change
message — the notification delivered to the observers registered through
`addListener` — is fired first, strictly before any model-card field is
populated, so an observer invoked at that point observes a still-empty model
card.  Only the separate `broadcastModelCardLoaded` call comes after the
fields. -/
theorem C1_notification_before_population :
    (TorchModel.load jitOk st0 goodParams).ret = .ok true
      ∧ (TorchModel.load jitOk st0 goodParams).events.head? = some Ev.changeMessage
      ∧ Ev.setName ∈ (TorchModel.load jitOk st0 goodParams).events.drop 1 :=
  ⟨rfl, rfl, by decide⟩

/-- C2 (corrected, amended part that holds). Any `load` call that does not
return true either (a) failed at or before graph deserialization and left the
handle exactly as it was with no notification fired, or (b) failed during
metadata extraction, in which case the loaded-flag has already been set to
true (so `ready()` changed) and the change-message notification has already
been fired. -/
theorem C2_failure_modes (jit : String → Except TErr JitModule)
    (st : TorchModelState) (params : List (String × PValue))
    (h : (TorchModel.load jit st params).ret ≠ .ok true) :
    ((TorchModel.load jit st params).state = st
        ∧ (TorchModel.load jit st params).events = [])
      ∨ ((TorchModel.load jit st params).state.m_loaded = true
        ∧ Ev.changeMessage ∈ (TorchModel.load jit st params).events) := by
  revert h
  unfold TorchModel.load
  split <;> intro h
  · exact Or.inl ⟨rfl, rfl⟩
  · revert h
    dsimp only
    split <;> intro h
    · exact Or.inl ⟨loadCatch_state _ _ _, loadCatch_events _ _ _⟩
    · revert h
      split <;> intro h
      · refine Or.inr ⟨?_, ?_⟩
        · rw [loadCatch_state]
        · rw [loadCatch_events]; simp
      · refine Or.inr ⟨?_, ?_⟩
        · rw [populateCard_loaded]
        · obtain ⟨t, ht⟩ := populateCard_prefix _ _ [Ev.changeMessage]
          rw [ht]; simp
  · exact Or.inl ⟨rfl, rfl⟩

/-- A `jitLoad` oracle whose deserialization throws a `c10::Error`, as
`torch::jit::load` does on an unreadable file. -/
def jitDeserialFail : String → Except TErr JitModule :=
  fun _ => .error (.c10 "open file failed")

/-- Witness for C2's amended theorem: a deserialization failure leaves the
handle unchanged and fires nothing. -/
theorem C2_failure_modes_witness :
    (TorchModel.load jitDeserialFail st0 goodParams).ret ≠ .ok true
      ∧ (((TorchModel.load jitDeserialFail st0 goodParams).state = st0
            ∧ (TorchModel.load jitDeserialFail st0 goodParams).events = [])
          ∨ ((TorchModel.load jitDeserialFail st0 goodParams).state.m_loaded = true
            ∧ Ev.changeMessage ∈ (TorchModel.load jitDeserialFail st0 goodParams).events)) :=
  ⟨by decide,
   C2_failure_modes jitDeserialFail st0 goodParams (by decide)⟩

/-- A module whose `model_card` attribute access throws as a `const char *`,
so the throw is caught by `load`'s catch clause. -/
def cardFailModule : JitModule :=
  ⟨.error (.cstr "model_card attribute missing"), fun t _ => .ok t, fun t _ => .ok t⟩

/-- A `jitLoad` oracle that deserializes successfully to `cardFailModule`. -/
def jitCardFail : String → Except TErr JitModule := fun _ => .ok cardFailModule

/-- Counterexample to C2 as stated: this load fails (returns false, because
metadata extraction threw), yet the handle is not left in its previous state —
the loaded-flag changed from false to true, so `ready()` flips from false to
true across the failing call — and the change-message notification was fired
before the failure. -/
theorem C2_failed_load_mutates_state :
    (TorchModel.load jitCardFail st0 goodParams).ret = .ok false
      ∧ st0.m_loaded = false
      ∧ (TorchModel.load jitCardFail st0 goodParams).state.m_loaded = true
      ∧ (TorchModel.load jitCardFail st0 goodParams).events = [Ev.changeMessage] :=
  ⟨rfl, rfl, rfl, rfl⟩

/-- C8 (confirmed). `load` with no "modelPath" key returns false without
throwing and without touching the handle (so `ready()` afterwards returns
what it returned before — false on a never-loaded handle); and `load` returns
true only when everything succeeded: the graph is stored, the loaded-flag is
set, and the event trace shows all five metadata fields populated and the
card broadcast fired. -/
theorem C8_load_success_conditions (jit : String → Except TErr JitModule)
    (st : TorchModelState) (params : List (String × PValue)) :
    (List.lookup "modelPath" params = none →
        TorchModel.load jit st params = ⟨.ok false, st, []⟩)
      ∧ ((TorchModel.load jit st params).ret = .ok true →
          (TorchModel.load jit st params).state.m_loaded = true
            ∧ (TorchModel.load jit st params).state.m_model.isSome = true
            ∧ (TorchModel.load jit st params).events
                = [Ev.changeMessage, Ev.setName, Ev.setDescription, Ev.setAuthor,
                   Ev.setSampleRate, Ev.setTags, Ev.cardBroadcast]) := by
  constructor
  · intro hn
    unfold TorchModel.load
    rw [hn]
  · unfold TorchModel.load
    split <;> intro h
    · exact absurd h (by simp)
    · revert h
      dsimp only
      split <;> intro h
      · exact absurd h (loadCatch_ret _ _ _)
      · revert h
        split <;> intro h
        · exact absurd h (loadCatch_ret _ _ _)
        · obtain ⟨hev, hld, hmd⟩ := populateCard_success _ _ [Ev.changeMessage] h
          refine ⟨?_, ?_, ?_⟩
          · rw [hld]
          · rw [hmd]; rfl
          · rw [hev]; rfl
    · exact absurd h (by simp)

/-- Witness for C8: the empty map yields false with the handle untouched, and
a concrete successful load satisfies all the success conditions. -/
theorem C8_load_success_conditions_witness :
    TorchModel.load jitOk st0 [] = ⟨.ok false, st0, []⟩
      ∧ ((TorchModel.load jitOk st0 goodParams).state.m_loaded = true
          ∧ (TorchModel.load jitOk st0 goodParams).state.m_model.isSome = true
          ∧ (TorchModel.load jitOk st0 goodParams).events
              = [Ev.changeMessage, Ev.setName, Ev.setDescription, Ev.setAuthor,
                 Ev.setSampleRate, Ev.setTags, Ev.cardBroadcast]) :=
  ⟨(C8_load_success_conditions jitOk st0 []).1 rfl,
   (C8_load_success_conditions jitOk st0 goodParams).2 rfl⟩

/-- Phase of the handle's `m_model` field across a concurrent replacement:
still the fully-prior value (possibly null, on a fresh handle), in the middle
of the non-atomic `m_model = std::make_unique<Module>(...)` assignment, or
the fully-new value. -/
inductive GPhase
  | prior
  | midReplace
  | replaced
deriving DecidableEq

/-- Who currently holds the handle's single `m_mutex`. -/
inductive LockOwner
  | free
  | byLoad
  | byProc
deriving DecidableEq

/-- Modelled from the spec: `TorchModel.h` (not under `src/`) declares the one
`m_mutex` member of the handle; per the spec, "a single lock per Model Handle
instance guards both `load` and `process`".  Both method bodies that are under
`src/` visibly wrap themselves in `std::lock_guard<std::mutex> lock(m_mutex)`
(TorchModel.cpp:51 and TorchModel.cpp:149), so this configuration has exactly
one lock.  A configuration of the two-thread system: one thread running
`TorchModel::load`, one running `TorchWave2Wave::process`, with the lock
owner, the phase of the graph field, each thread's program counter, and the
graph value the process thread read (once it has). -/
structure HandleConfig where
  lock : LockOwner
  graph : GPhase
  lpc : Nat
  ppc : Nat
  seen : Option GPhase
deriving DecidableEq

/-- One interleaving step of the two threads.  The load thread mirrors
`TorchModel::load`: acquire the lock on entry (the `lock_guard`), replace
`m_model` (non-atomically: it passes through `midReplace`), release at scope
exit.  The process thread mirrors `TorchWave2Wave::process`: acquire the same
lock, read `m_model`, release.  Acquisition blocks unless the lock is free. -/
inductive HandleStep : HandleConfig → HandleConfig → Prop
  | loadAcquire (s : HandleConfig) :
      s.lock = .free → s.lpc = 0 →
      HandleStep s { s with lock := .byLoad, lpc := 1 }
  | loadBeginStore (s : HandleConfig) :
      s.lpc = 1 →
      HandleStep s { s with graph := .midReplace, lpc := 2 }
  | loadFinishStore (s : HandleConfig) :
      s.lpc = 2 →
      HandleStep s { s with graph := .replaced, lpc := 3 }
  | loadRelease (s : HandleConfig) :
      s.lpc = 3 →
      HandleStep s { s with lock := .free, lpc := 4 }
  | procAcquire (s : HandleConfig) :
      s.lock = .free → s.ppc = 0 →
      HandleStep s { s with lock := .byProc, ppc := 1 }
  | procRead (s : HandleConfig) :
      s.ppc = 1 →
      HandleStep s { s with seen := some s.graph, ppc := 2 }
  | procRelease (s : HandleConfig) :
      s.ppc = 2 →
      HandleStep s { s with lock := .free, ppc := 3 }

/-- Both threads at their entry points, lock free, graph at its fully-prior
value, nothing read yet. -/
def initConfig : HandleConfig := ⟨.free, .prior, 0, 0, none⟩

/-- Configurations reachable under some interleaving of the two calls. -/
def ReachableConfig (s : HandleConfig) : Prop :=
  Relation.ReflTransGen HandleStep initConfig s

/-- The load thread is inside its `lock_guard` scope. -/
def loadInCrit (s : HandleConfig) : Prop := s.lpc = 1 ∨ s.lpc = 2 ∨ s.lpc = 3

/-- The process thread is inside its `lock_guard` scope. -/
def procInCrit (s : HandleConfig) : Prop := s.ppc = 1 ∨ s.ppc = 2

/-- Inductive invariant: lock discipline for each thread, the graph is only
mid-replacement while the load thread is between its two store half-steps,
and any value the process thread has read is not a mid-replacement value. -/
def ConfigInv (s : HandleConfig) : Prop :=
  (loadInCrit s → s.lock = .byLoad)
    ∧ (procInCrit s → s.lock = .byProc)
    ∧ (s.graph = .midReplace → s.lpc = 2)
    ∧ s.seen ≠ some .midReplace

lemma configInv_init : ConfigInv initConfig := by
  refine ⟨?_, ?_, ?_, ?_⟩ <;> simp [ConfigInv, loadInCrit, procInCrit, initConfig]

lemma configInv_step {s t : HandleConfig} (hinv : ConfigInv s)
    (hstep : HandleStep s t) : ConfigInv t := by
  obtain ⟨lk, gr, l, p, sn⟩ := s
  obtain ⟨hl, hp, hg, hs⟩ := hinv
  simp only [ConfigInv, loadInCrit, procInCrit] at hl hp hg hs ⊢
  cases hstep with
  | loadAcquire hfree hpc =>
    subst hfree hpc
    dsimp only
    exact ⟨fun _ => rfl, fun hc => absurd (hp hc) (fun hx => nomatch hx),
      fun hm => absurd (hg hm) (by omega), hs⟩
  | loadBeginStore hpc =>
    subst hpc
    have hlk : lk = .byLoad := hl (Or.inl rfl)
    subst hlk
    dsimp only
    exact ⟨fun _ => rfl, fun hc => absurd (hp hc) (fun hx => nomatch hx),
      fun _ => rfl, hs⟩
  | loadFinishStore hpc =>
    subst hpc
    have hlk : lk = .byLoad := hl (Or.inr (Or.inl rfl))
    subst hlk
    dsimp only
    refine ⟨fun _ => rfl, fun hc => absurd (hp hc) (fun hx => nomatch hx),
      fun hm => ?_, hs⟩
    exact nomatch hm
  | loadRelease hpc =>
    subst hpc
    have hlk : lk = .byLoad := hl (Or.inr (Or.inr rfl))
    subst hlk
    dsimp only
    refine ⟨fun hc => ?_, fun hc => absurd (hp hc) (fun hx => nomatch hx),
      fun hm => ?_, hs⟩
    · rcases hc with h | h | h <;> omega
    · exact absurd (hg hm) (by omega)
  | procAcquire hfree hpc =>
    subst hfree hpc
    dsimp only
    exact ⟨fun hc => absurd (hl hc) (fun hx => nomatch hx), fun _ => rfl,
      fun hm => hg hm, hs⟩
  | procRead hpc =>
    subst hpc
    have hlk : lk = .byProc := hp (Or.inl rfl)
    subst hlk
    dsimp only
    refine ⟨fun hc => absurd (hl hc) (fun hx => nomatch hx), fun _ => rfl,
      fun hm => hg hm, ?_⟩
    intro hx
    simp only [Option.some.injEq] at hx
    have hlpc : l = 2 := hg hx
    have hcontr : LockOwner.byProc = LockOwner.byLoad :=
      hl (Or.inr (Or.inl hlpc))
    exact nomatch hcontr
  | procRelease hpc =>
    subst hpc
    have hlk : lk = .byProc := hp (Or.inr rfl)
    subst hlk
    dsimp only
    refine ⟨fun hc => absurd (hl hc) (fun hx => nomatch hx), fun hc => ?_,
      fun hm => hg hm, hs⟩
    rcases hc with h | h <;> omega

lemma configInv_reachable {s : HandleConfig} (h : ReachableConfig s) :
    ConfigInv s := by
  induction h with
  | refl => exact configInv_init
  | tail _ hstep ih => exact configInv_step ih hstep

/-- C9 (confirmed). In every configuration reachable under any interleaving
of a concurrent `load` and `process` on the same handle, the two critical
sections are mutually exclusive — at most one of {load, process} executes at
a time, both serializing on the handle's single lock — and consequently the
graph reference the process call reads is never a mid-replacement value: it
is either the fully-prior or the fully-new graph. -/
theorem C9_lock_serializes_load_process (s : HandleConfig)
    (h : ReachableConfig s) :
    ¬(loadInCrit s ∧ procInCrit s) ∧ s.seen ≠ some GPhase.midReplace := by
  obtain ⟨hl, hp, _, hs⟩ := configInv_reachable h
  refine ⟨fun ⟨hlc, hpc⟩ => ?_, hs⟩
  have h1 := hl hlc
  have h2 := hp hpc
  rw [h1] at h2
  exact LockOwner.noConfusion h2

/-- Witness for C9: the configuration in which the process thread acquired
the lock first and read the fully-prior graph is reachable, and the theorem
applies to it. -/
theorem C9_lock_serializes_load_process_witness :
    ReachableConfig ⟨.byProc, .prior, 0, 2, some .prior⟩
      ∧ (¬(loadInCrit ⟨.byProc, .prior, 0, 2, some .prior⟩
            ∧ procInCrit ⟨.byProc, .prior, 0, 2, some .prior⟩)
        ∧ (HandleConfig.mk .byProc .prior 0 2 (some .prior)).seen
            ≠ some GPhase.midReplace) := by
  have h1 : HandleStep initConfig ⟨.byProc, .prior, 0, 1, none⟩ :=
    HandleStep.procAcquire initConfig rfl rfl
  have h2 : HandleStep ⟨.byProc, .prior, 0, 1, none⟩
      ⟨.byProc, .prior, 0, 2, some .prior⟩ :=
    HandleStep.procRead ⟨.byProc, .prior, 0, 1, none⟩ rfl
  have hr : ReachableConfig ⟨.byProc, .prior, 0, 2, some .prior⟩ :=
    Relation.ReflTransGen.tail (Relation.ReflTransGen.tail
      Relation.ReflTransGen.refl h1) h2
  exact ⟨hr, C9_lock_serializes_load_process _ hr⟩
